import Mathlib

/-!
Shallow embedding of the ezLog repository (Go): a zerolog-based logging
facade with a fluent `LogBuilder` and a GORM logger adapter (`GormLogger`).

Conventions of the embedding:
- Machine integers (`time.Duration`, row counts, `logger.LogLevel`) are `Int`
  (they are `int64`/`int` in Go; no overflow-relevant arithmetic occurs).
- Terminal coloring by `github.com/fatih/color` is modelled concretely as the
  ANSI escape sequence that `color.New(attrs...).Sprint/Sprintf` wraps around
  its text (attribute codes: Bold=1, FgRed=31, FgGreen=32, FgYellow=33,
  FgBlue=34, FgMagenta=35, FgCyan=36, FgWhite=37).
- External library functions whose concrete rendering the claims do not pin
  down (`time.Duration.String`, `fmt.Sprintf` with `%q`, `Msgf` template
  application, `tview.Escape`) are carried as a parameter record `Ext` of
  uninterpreted string functions.
- The effects of `GormLogger.Trace` (capturing the elapsed time, calling the
  result-provider callback, emitting a record) are recorded as an explicit
  effect list, in program order.
-/

namespace EzLog

/-- ANSI coloring as performed by fatih/color: `ESC [ codes m text ESC [0m`. -/
def ansi (codes : List Nat) (s : String) : String :=
  "\x1b[" ++ String.intercalate ";" (codes.map toString) ++ "m" ++ s ++ "\x1b[0m"

/-- Values passed as printf-style arguments or structured-field values,
classified the way `FormatFieldValue` in the builder inspects them:
nil, bool, any integer kind, any float kind, string, or anything else
(carried as its default `%s` text form). -/
inductive GoVal where
  | vnil
  | vbool (b : Bool)
  | vint (n : Int)
  | vfloat (q : Rat)
  | vstring (s : String)
  | vother (text : String)
  deriving DecidableEq

/-- Rendering of a Go `bool` by `Sprint`. -/
def goBoolStr (b : Bool) : String :=
  if b then "true" else "false"

/-- Left-pad a string with zeros to the given width. -/
def padZeros (w : Nat) (s : String) : String :=
  String.mk (List.replicate (w - s.length) '0') ++ s

/-- Go `fmt` verb `%f` with its default precision 6 (fixed-point, six
fractional digits, rounding to nearest), on the idealized rational value
`num / den` of the float: the scaled value rounds as
`(|num| * 10^6 * 2 + den) / (2 * den)` in integer arithmetic, which is the
floor of `|q| * 10^6 + 1/2`. -/
def goFormatF (q : Rat) : String :=
  let neg := q.num < 0
  let num : Nat := q.num.natAbs
  let n : Nat := (num * 2000000 + q.den) / (2 * q.den)
  (if neg then "-" else "") ++ toString (n / 1000000) ++ "."
    ++ padZeros 6 (toString (n % 1000000))

/-- External library string functions the source calls but whose output the
embedding leaves uninterpreted: `time.Duration.String`, `%q` quoting,
printf-template application (for `Msgf`), and `tview.Escape`. -/
structure Ext where
  durString : Int → String
  quote : String → String
  sprintf : String → List GoVal → String
  tviewEscape : String → String

/-- An `io.Writer` destination: `os.Stdout` or some other caller-supplied
writer (identified abstractly). -/
inductive Writer where
  | stdout
  | custom (id : Nat)
  deriving DecidableEq

/-- The `LogBuilder` struct (tag/global-aware variant). -/
structure LogBuilder where
  tviewCompat : Bool
  writer : Writer
  tag : String
  isGlobal : Bool
  deriving DecidableEq

/-- `New` creates a new LogBuilder: not tview-compatible, writing to stdout,
no tag (Go zero value), local (not global). -/
def LogBuilder.New : LogBuilder :=
  { tviewCompat := false, writer := Writer.stdout, tag := "", isGlobal := false }

/-- `WithTag` adds a custom colored tag to the logger's output. -/
def LogBuilder.WithTag (b : LogBuilder) (tag : String) : LogBuilder :=
  { b with tag := tag }

/-- `AsGlobal` configures the builder to replace the global instance upon
building. -/
def LogBuilder.AsGlobal (b : LogBuilder) : LogBuilder :=
  { b with isGlobal := true }

/-- `WithTviewCompat` sets the tviewCompat field to true. -/
def LogBuilder.WithTviewCompat (b : LogBuilder) : LogBuilder :=
  { b with tviewCompat := true }

/-- `SetTviewCompat` sets the tviewCompat field to the given value. -/
def LogBuilder.SetTviewCompat (b : LogBuilder) (tviewCompat : Bool) : LogBuilder :=
  { b with tviewCompat := tviewCompat }

/-- `SetWriter` sets the writer field to the given writer. -/
def LogBuilder.SetWriter (b : LogBuilder) (writer : Writer) : LogBuilder :=
  { b with writer := writer }

/-- `WithWriter` sets the writer field to the given writer. -/
def LogBuilder.WithWriter (b : LogBuilder) (writer : Writer) : LogBuilder :=
  { b with writer := writer }

/-- The `FormatLevel` hook installed by `LogBuilder.Build`: uppercase the
level text, wrap it in square brackets, color it by level, and pass the
colored token through `tview.Escape` when tview compatibility is on. -/
def LogBuilder.FormatLevel (ext : Ext) (b : LogBuilder) (i : String) : String :=
  let levelStr := i.toUpper
  let coloredLevel :=
    if levelStr = "DEBUG" then ansi [34] ("[" ++ levelStr ++ "]")
    else if levelStr = "INFO" then ansi [32] ("[" ++ levelStr ++ "]")
    else if levelStr = "WARN" then ansi [33] ("[" ++ levelStr ++ "]")
    else if levelStr = "ERROR" then ansi [31] ("[" ++ levelStr ++ "]")
    else if levelStr = "FATAL" then ansi [31, 1] ("[" ++ levelStr ++ "]")
    else ansi [37] ("[" ++ levelStr ++ "]")
  if b.tviewCompat then ext.tviewEscape coloredLevel else coloredLevel

/-- The `FormatLevel` hook installed by `InitWithWriter` (ezLog.go): same
uppercasing and coloring, but the token is wrapped in curly braces and there
is no tview-compatibility mode. -/
def initFormatLevel (i : String) : String :=
  let levelStr := i.toUpper
  if levelStr = "DEBUG" then ansi [34] ("\x7b" ++ levelStr ++ "\x7d")
  else if levelStr = "INFO" then ansi [32] ("\x7b" ++ levelStr ++ "\x7d")
  else if levelStr = "WARN" then ansi [33] ("\x7b" ++ levelStr ++ "\x7d")
  else if levelStr = "ERROR" then ansi [31] ("\x7b" ++ levelStr ++ "\x7d")
  else if levelStr = "FATAL" then ansi [31, 1] ("\x7b" ++ levelStr ++ "\x7d")
  else ansi [37] ("\x7b" ++ levelStr ++ "\x7d")

/-- The `FormatMessage` hook installed by `LogBuilder.Build`: prefix with the
magenta bracketed tag and a space when a tag is configured, identity
otherwise. -/
def LogBuilder.FormatMessage (b : LogBuilder) (m : String) : String :=
  if b.tag ≠ "" then ansi [35] ("[" ++ b.tag ++ "]") ++ " " ++ m else m

/-- The `FormatFieldName` hook installed by `LogBuilder.Build`. -/
def LogBuilder.FormatFieldName (i : String) : String :=
  ansi [36] (i ++ "=")

/-- The `FormatFieldValue` hook installed by `LogBuilder.Build`:
type-directed coloring over the value's dynamic type. -/
def LogBuilder.FormatFieldValue (ext : Ext) : GoVal → String
  | GoVal.vnil => ansi [31] "nil"
  | GoVal.vstring s => ansi [32] (ext.quote s)
  | GoVal.vbool b => ansi [35] (goBoolStr b)
  | GoVal.vint n => ansi [33] (toString n)
  | GoVal.vfloat q => ansi [33] (goFormatF q)
  | GoVal.vother text => text

/-- Zerolog severity levels that the sources emit at. -/
inductive ZLevel where
  | debug
  | info
  | warn
  | error
  deriving DecidableEq

/-- A built zerolog logger instance, determined by the builder snapshot that
its console writer and formatting closures capture. -/
structure ZLogger where
  writer : Writer
  tviewCompat : Bool
  tag : String
  deriving DecidableEq

/-- Process-wide mutable state touched by `LogBuilder.Build`: zerolog's
global level and time-field format, the package-level default logger
`log.Logger` (`none` standing for the library's own initial logger), and the
package-level retained reference `globalLogger` (initially nil). -/
structure ZGlobal where
  globalLevel : ZLevel
  timeFieldFormat : String
  logLogger : Option ZLogger
  globalLogger : Option ZLogger
  deriving DecidableEq

/-- `LogBuilder.Build`: set the global level to debug and the time format,
construct the logger from the builder snapshot, and, only when `isGlobal` is
set, install it as `log.Logger` and retain it in `globalLogger`. Returns the
built instance together with the updated process-wide state. -/
def LogBuilder.Build (b : LogBuilder) (g : ZGlobal) : ZLogger × ZGlobal :=
  let g1 : ZGlobal := { g with globalLevel := ZLevel.debug, timeFieldFormat := "15:04:05.000" }
  let newLogger : ZLogger := { writer := b.writer, tviewCompat := b.tviewCompat, tag := b.tag }
  if b.isGlobal then
    (newLogger, { g1 with logLogger := some newLogger, globalLogger := some newLogger })
  else
    (newLogger, g1)

/-- A Go error value as the GORM adapter inspects it: all it ever asks is
whether `errors.Is(err, gorm.ErrRecordNotFound)` holds. -/
structure GormErr where
  isRecordNotFound : Bool
  deriving DecidableEq

/-- The `errors.Is(err, gorm.ErrRecordNotFound)` test on a nilable error. -/
def errIsNotFound : Option GormErr → Bool
  | some e => e.isRecordNotFound
  | none => false

/-- gorm's `logger.Silent` (= 1). -/
def gormSilent : Int := 1

/-- gorm's `logger.Error` (= 2). -/
def gormError : Int := 2

/-- gorm's `logger.Warn` (= 3). -/
def gormWarn : Int := 3

/-- gorm's `logger.Info` (= 4). -/
def gormInfo : Int := 4

/-- The `GormLogger` struct. -/
structure GormLogger where
  logLevel : Int
  slowThreshold : Int
  sourceField : String
  skipErrRecordNotFound : Bool
  tag : String
  deriving DecidableEq

/-- The `GormLoggerBuilder` struct. -/
structure GormLoggerBuilder where
  logger : GormLogger
  deriving DecidableEq

/-- `NewGormLogger`: builder with log level Info, slow threshold 200ms
(in nanoseconds), skipErrRecordNotFound true, and zero values elsewhere. -/
def NewGormLogger : GormLoggerBuilder :=
  { logger := { logLevel := gormInfo, slowThreshold := 200000000, sourceField := "",
                skipErrRecordNotFound := true, tag := "" } }

/-- `WithTag` adds a custom colored tag to the logger's output. -/
def GormLoggerBuilder.WithTag (b : GormLoggerBuilder) (tag : String) : GormLoggerBuilder :=
  { b with logger := { b.logger with tag := tag } }

/-- `WithLogLevel` sets the log level for the logger. -/
def GormLoggerBuilder.WithLogLevel (b : GormLoggerBuilder) (level : Int) : GormLoggerBuilder :=
  { b with logger := { b.logger with logLevel := level } }

/-- `WithSlowThreshold` sets the slow query threshold. -/
def GormLoggerBuilder.WithSlowThreshold (b : GormLoggerBuilder) (threshold : Int) : GormLoggerBuilder :=
  { b with logger := { b.logger with slowThreshold := threshold } }

/-- `WithSourceField` sets the source field for logging. -/
def GormLoggerBuilder.WithSourceField (b : GormLoggerBuilder) (field : String) : GormLoggerBuilder :=
  { b with logger := { b.logger with sourceField := field } }

/-- `WithSkipErrRecordNotFound` sets whether to skip record-not-found
errors. -/
def GormLoggerBuilder.WithSkipErrRecordNotFound (b : GormLoggerBuilder) (skip : Bool) : GormLoggerBuilder :=
  { b with logger := { b.logger with skipErrRecordNotFound := skip } }

/-- `Build` returns the configured GormLogger. -/
def GormLoggerBuilder.Build (b : GormLoggerBuilder) : GormLogger :=
  b.logger

/-- `LogMode` copies the receiver, sets the copy's log level, and returns the
copy. -/
def GormLogger.LogMode (l : GormLogger) (level : Int) : GormLogger :=
  { l with logLevel := level }

/-- `formatMsg` adds the magenta bracketed tag to the message if one is
configured. -/
def GormLogger.formatMsg (l : GormLogger) (msg : String) : String :=
  if l.tag ≠ "" then ansi [35] ("[" ++ l.tag ++ "]") ++ " " ++ msg else msg

/-- A record emitted to the underlying zerolog logger: its level, the
attached error (from `.Err(err)`) if any, and its final message text. -/
structure ZRecord where
  level : ZLevel
  err : Option GormErr
  msg : String
  deriving DecidableEq

/-- `GormLogger.Info`: emits an info record iff the configured level is at
least Info; the message is the tag-prefixed template applied to the args by
`Msgf`. -/
def GormLogger.Info (ext : Ext) (l : GormLogger) (msg : String) (data : List GoVal) : Option ZRecord :=
  if gormInfo ≤ l.logLevel then
    some { level := ZLevel.info, err := none, msg := ext.sprintf (l.formatMsg msg) data }
  else none

/-- `GormLogger.Warn`: emits a warn record iff the configured level is at
least Warn. -/
def GormLogger.Warn (ext : Ext) (l : GormLogger) (msg : String) (data : List GoVal) : Option ZRecord :=
  if gormWarn ≤ l.logLevel then
    some { level := ZLevel.warn, err := none, msg := ext.sprintf (l.formatMsg msg) data }
  else none

/-- `GormLogger.Error`: emits an error record iff the configured level is at
least Error. -/
def GormLogger.Error (ext : Ext) (l : GormLogger) (msg : String) (data : List GoVal) : Option ZRecord :=
  if gormError ≤ l.logLevel then
    some { level := ZLevel.error, err := none, msg := ext.sprintf (l.formatMsg msg) data }
  else none

/-- The `sqlLog` string `Trace` builds: elapsed (yellow), rows (cyan), and
the `%q`-quoted SQL (green). -/
def sqlLogStr (ext : Ext) (elapsed : Int) (rows : Int) (sql : String) : String :=
  "elapsed=" ++ ansi [33] (ext.durString elapsed) ++ " rows=" ++ ansi [36] (toString rows)
    ++ " sql=" ++ ansi [32] (ext.quote sql)

/-- One observable step of `GormLogger.Trace`, in program order: capturing
the elapsed duration, invoking the result-provider callback `fc`, or
emitting a record. -/
inductive TraceStep where
  | captureElapsed (e : Int)
  | callFc
  | emit (r : ZRecord)
  deriving DecidableEq

/-- `GormLogger.Trace`: returns immediately when the configured level is at
or below Silent; otherwise captures the elapsed time, calls `fc` once for
(sql, rows), and emits by the first matching case of the switch: error-level
when an error is present, not suppressed as record-not-found, and the level
admits Error; warn-level slow query when the threshold is positive, exceeded,
and the level admits Warn; debug-level routine query when the level admits
Info; nothing otherwise. -/
def GormLogger.Trace (ext : Ext) (l : GormLogger) (elapsed : Int)
    (fc : Unit → String × Int) (err : Option GormErr) : List TraceStep :=
  if l.logLevel ≤ gormSilent then []
  else
    let r := fc ()
    let sqlLog := sqlLogStr ext elapsed r.2 r.1
    let emits : List TraceStep :=
      if err.isSome ∧ (l.skipErrRecordNotFound = false ∨ errIsNotFound err = false)
          ∧ gormError ≤ l.logLevel then
        [TraceStep.emit { level := ZLevel.error, err := err,
                          msg := l.formatMsg ("gorm error " ++ sqlLog) }]
      else if 0 < l.slowThreshold ∧ l.slowThreshold < elapsed ∧ gormWarn ≤ l.logLevel then
        [TraceStep.emit { level := ZLevel.warn, err := none,
                          msg := l.formatMsg ("gorm slow query " ++ sqlLog) }]
      else if gormInfo ≤ l.logLevel then
        [TraceStep.emit { level := ZLevel.debug, err := none,
                          msg := l.formatMsg ("gorm query " ++ sqlLog) }]
      else []
    TraceStep.captureElapsed elapsed :: TraceStep.callFc :: emits

/-- The records a trace-effect list emits. -/
def emittedRecords (steps : List TraceStep) : List ZRecord :=
  steps.filterMap fun s =>
    match s with
    | TraceStep.emit r => some r
    | _ => none

/-- How many times a trace-effect list invokes the result-provider
callback. -/
def fcCallCount (steps : List TraceStep) : Nat :=
  (steps.filterMap fun s =>
    match s with
    | TraceStep.callFc => some Unit.unit
    | _ => none).length

/-- Whether a trace-effect list captures the given elapsed duration. -/
def capturesElapsed (steps : List TraceStep) (e : Int) : Prop :=
  TraceStep.captureElapsed e ∈ steps

/-- The color table exactly as the specification words it: debug blue, info
green, warn yellow, error red, fatal red and bold, anything else white. -/
def specLevelColor (u : String) : List Nat :=
  if u = "DEBUG" then [34]
  else if u = "INFO" then [32]
  else if u = "WARN" then [33]
  else if u = "ERROR" then [31]
  else if u = "FATAL" then [31, 1]
  else [37]

/-- The Trace decision policy exactly as the claim words it (no level
gating): an error-level record is emitted iff the error is non-nil and not
suppressed; otherwise a warn-level record iff the threshold is positive and
exceeded; otherwise a debug-level record. -/
def traceClaimSpec (ext : Ext) (l : GormLogger) (elapsed : Int)
    (fc : Unit → String × Int) (err : Option GormErr) : Prop :=
  let out := emittedRecords (l.Trace ext elapsed fc err)
  if err.isSome ∧ (l.skipErrRecordNotFound = false ∨ errIsNotFound err = false) then
    ∃ r ∈ out, r.level = ZLevel.error
  else if 0 < l.slowThreshold ∧ l.slowThreshold < elapsed then
    ∃ r ∈ out, r.level = ZLevel.warn
  else
    ∃ r ∈ out, r.level = ZLevel.debug

/-- A concrete instantiation of the external string functions, used for the
concrete counterexamples. -/
def extW : Ext :=
  { durString := fun _ => "", quote := fun s => s, sprintf := fun s _ => s,
    tviewEscape := fun s => s }

/-- A concrete result provider for the concrete counterexamples. -/
def fcW : Unit → String × Int :=
  fun _ => ("SELECT 1", 0)

/-- C8: a freshly created builder (`New`) has exactly the default
configuration: destination stream standard output, no tag, global-install
flag false, terminal-UI-compatibility escaping disabled. -/
theorem new_builder_defaults :
    LogBuilder.New.writer = Writer.stdout ∧ LogBuilder.New.tag = "" ∧
      LogBuilder.New.isGlobal = false ∧ LogBuilder.New.tviewCompat = false :=
  ⟨rfl, rfl, rfl, rfl⟩

/-- C9: `LogMode` returns a new adapter whose log level is the requested one
and whose slow threshold, source field, skip-record-not-found flag, and tag
all equal the receiver's; the receiver is a value copy, so it is not
mutated. -/
theorem log_mode_copies (l : GormLogger) (level : Int) :
    (l.LogMode level).logLevel = level ∧
      (l.LogMode level).slowThreshold = l.slowThreshold ∧
      (l.LogMode level).sourceField = l.sourceField ∧
      (l.LogMode level).skipErrRecordNotFound = l.skipErrRecordNotFound ∧
      (l.LogMode level).tag = l.tag :=
  ⟨rfl, rfl, rfl, rfl, rfl⟩

/-- C7: both the built logger's message-formatting hook and the ORM
adapter's `formatMsg` prefix the message with the magenta bracketed tag and
a space when a tag is configured, and leave the message unchanged when no
tag is configured. -/
theorem message_tag_prefixing (l : GormLogger) (b : LogBuilder) (m : String) :
    l.formatMsg m = (if l.tag = "" then m else ansi [35] ("[" ++ l.tag ++ "]") ++ " " ++ m) ∧
      b.FormatMessage m
        = (if b.tag = "" then m else ansi [35] ("[" ++ b.tag ++ "]") ++ " " ++ m) := by
  constructor
  · unfold GormLogger.formatMsg
    by_cases h : l.tag = "" <;> simp [h]
  · unfold LogBuilder.FormatMessage
    by_cases h : b.tag = "" <;> simp [h]

/-- C3: `Build` installs the built instance as the process-wide default
logger and the process-wide retained reference exactly when the
global-install flag is set; without the flag both slots keep their prior
values. -/
theorem build_global_install (b : LogBuilder) (g : ZGlobal) :
    (b.Build g).2.logLogger = (if b.isGlobal then some (b.Build g).1 else g.logLogger) ∧
      (b.Build g).2.globalLogger = (if b.isGlobal then some (b.Build g).1 else g.globalLogger) ∧
      (b.Build g).1 = { writer := b.writer, tviewCompat := b.tviewCompat, tag := b.tag } := by
  unfold LogBuilder.Build
  by_cases h : b.isGlobal <;> simp [h]

/-- C10: two adapters that differ only in their configured source field
produce identical output on every invocation of `Info`, `Warn`, `Error`,
and `Trace` with identical arguments: the source field is never read. -/
theorem source_field_noninterference (ext : Ext) (l : GormLogger) (s1 s2 : String)
    (msg : String) (data : List GoVal) (elapsed : Int) (fc : Unit → String × Int)
    (err : Option GormErr) :
    GormLogger.Info ext { l with sourceField := s1 } msg data
        = GormLogger.Info ext { l with sourceField := s2 } msg data ∧
      GormLogger.Warn ext { l with sourceField := s1 } msg data
        = GormLogger.Warn ext { l with sourceField := s2 } msg data ∧
      GormLogger.Error ext { l with sourceField := s1 } msg data
        = GormLogger.Error ext { l with sourceField := s2 } msg data ∧
      GormLogger.Trace ext { l with sourceField := s1 } elapsed fc err
        = GormLogger.Trace ext { l with sourceField := s2 } elapsed fc err :=
  ⟨rfl, rfl, rfl, rfl⟩

/-- C4: for every level input (the five known levels and any unknown one),
the builder's level-formatting hook renders the uppercased level name in a
square-bracket pair with the level's designated color (debug blue, info
green, warn yellow, error red, fatal red and bold, unknown white), and when
terminal-UI-compatibility mode is set the rendered token is additionally
passed through the compatibility target's markup-escaping function; the
`InitWithWriter` hook renders the same colored token in a curly-brace
pair. -/
theorem format_level_rendering (ext : Ext) (b : LogBuilder) (i : String) :
    b.FormatLevel ext i
        = (if b.tviewCompat then
            ext.tviewEscape (ansi (specLevelColor i.toUpper) ("[" ++ i.toUpper ++ "]"))
          else ansi (specLevelColor i.toUpper) ("[" ++ i.toUpper ++ "]")) ∧
      initFormatLevel i
        = ansi (specLevelColor i.toUpper) ("\x7b" ++ i.toUpper ++ "\x7d") := by
  constructor
  · unfold LogBuilder.FormatLevel specLevelColor
    split_ifs <;> simp_all
  · unfold initFormatLevel specLevelColor
    split_ifs <;> simp_all

/-- C5: each of the adapter callbacks `Info`, `Warn`, `Error` emits a record
at its own level, with the message template tag-prefixed by `formatMsg` and
applied to the positional args, exactly when the configured level admits it
(at least Info, Warn, Error respectively); otherwise nothing is emitted. -/
theorem gorm_level_gated_emission (ext : Ext) (l : GormLogger) (msg : String)
    (data : List GoVal) :
    (l.Info ext msg data ≠ none ↔ gormInfo ≤ l.logLevel) ∧
      (l.Info ext msg data = none ∨
        l.Info ext msg data
          = some { level := ZLevel.info, err := none,
                   msg := ext.sprintf (l.formatMsg msg) data }) ∧
      (l.Warn ext msg data ≠ none ↔ gormWarn ≤ l.logLevel) ∧
      (l.Warn ext msg data = none ∨
        l.Warn ext msg data
          = some { level := ZLevel.warn, err := none,
                   msg := ext.sprintf (l.formatMsg msg) data }) ∧
      (l.Error ext msg data ≠ none ↔ gormError ≤ l.logLevel) ∧
      (l.Error ext msg data = none ∨
        l.Error ext msg data
          = some { level := ZLevel.error, err := none,
                   msg := ext.sprintf (l.formatMsg msg) data }) := by
  unfold GormLogger.Info GormLogger.Warn GormLogger.Error
  by_cases hi : gormInfo ≤ l.logLevel <;> by_cases hw : gormWarn ≤ l.logLevel <;>
    by_cases he : gormError ≤ l.logLevel <;> simp [hi, hw, he]

/-- C6: the extended field-value formatting hook renders nil as the literal
text nil in red, booleans unquoted in magenta, integers in yellow decimal
form, floats in yellow fixed-point form (3.14 becomes 3.140000), strings
quoted in green, and any other value via its default text form. -/
theorem format_field_value_rendering (ext : Ext) (b : Bool) (n : Int) (q : Rat)
    (s t : String) :
    LogBuilder.FormatFieldValue ext GoVal.vnil = ansi [31] "nil" ∧
      LogBuilder.FormatFieldValue ext (GoVal.vbool b) = ansi [35] (goBoolStr b) ∧
      LogBuilder.FormatFieldValue ext (GoVal.vint n) = ansi [33] (toString n) ∧
      LogBuilder.FormatFieldValue ext (GoVal.vfloat q) = ansi [33] (goFormatF q) ∧
      goFormatF (mkRat 157 50) = "3.140000" ∧
      LogBuilder.FormatFieldValue ext (GoVal.vstring s) = ansi [32] (ext.quote s) ∧
      LogBuilder.FormatFieldValue ext (GoVal.vother t) = t := by
  refine ⟨rfl, rfl, rfl, rfl, ?_, rfl, rfl⟩
  decide

/-- C1 fails as stated: at configured level Error (which the claim ignores),
a successful slow query (no error, threshold 200ms, elapsed 300ms) emits no
record at all, while the claim's decision table requires a warn-level
slow-query record. -/
theorem trace_spec_decision_table_fails :
    ¬ traceClaimSpec extW
        { logLevel := gormError, slowThreshold := 200000000, sourceField := "",
          skipErrRecordNotFound := true, tag := "" } 300000000 fcW none := by
  unfold traceClaimSpec
  decide

/-- C1 (amended): the Trace decision policy with the level gates the code
actually applies. Exactly one switch case fires, in priority order, each
additionally gated by the configured level: the error record (carrying the
error and the sql/elapsed/rows log text) requires level at least Error, the
warn slow-query record requires a positive exceeded threshold and level at
least Warn, the debug routine-query record requires level at least Info;
when no gated case applies (in particular at level Silent or below) nothing
is emitted. At most one record is emitted per call. -/
theorem trace_decision_with_level_gates (ext : Ext) (l : GormLogger) (elapsed : Int)
    (fc : Unit → String × Int) (err : Option GormErr) :
    emittedRecords (l.Trace ext elapsed fc err)
        = (if err.isSome ∧ (l.skipErrRecordNotFound = false ∨ errIsNotFound err = false)
              ∧ gormError ≤ l.logLevel then
            [{ level := ZLevel.error, err := err,
               msg := l.formatMsg ("gorm error " ++ sqlLogStr ext elapsed (fc ()).2 (fc ()).1) }]
          else if 0 < l.slowThreshold ∧ l.slowThreshold < elapsed ∧ gormWarn ≤ l.logLevel then
            [{ level := ZLevel.warn, err := none,
               msg := l.formatMsg ("gorm slow query " ++ sqlLogStr ext elapsed (fc ()).2 (fc ()).1) }]
          else if gormInfo ≤ l.logLevel then
            [{ level := ZLevel.debug, err := none,
               msg := l.formatMsg ("gorm query " ++ sqlLogStr ext elapsed (fc ()).2 (fc ()).1) }]
          else []) ∧
      (emittedRecords (l.Trace ext elapsed fc err)).length ≤ 1 := by
  unfold GormLogger.Trace
  by_cases hs : l.logLevel ≤ gormSilent
  · have hE : ¬ gormError ≤ l.logLevel := by
      simp only [gormSilent] at hs
      simp only [gormError]
      omega
    have hW : ¬ gormWarn ≤ l.logLevel := by
      simp only [gormSilent] at hs
      simp only [gormWarn]
      omega
    have hI : ¬ gormInfo ≤ l.logLevel := by
      simp only [gormSilent] at hs
      simp only [gormInfo]
      omega
    simp [hs, hE, hW, hI, emittedRecords]
  · simp only [hs, if_false]
    split_ifs <;> simp [emittedRecords]

/-- C2 fails as stated: at configured level Silent, Trace returns before
capturing the elapsed time or invoking the result-provider callback, so the
callback is invoked zero times, not once. -/
theorem trace_silent_skips_callback :
    ¬ (capturesElapsed (GormLogger.Trace extW
          { logLevel := gormSilent, slowThreshold := 200000000, sourceField := "",
            skipErrRecordNotFound := true, tag := "" } 5 fcW none) 5 ∧
        fcCallCount (GormLogger.Trace extW
          { logLevel := gormSilent, slowThreshold := 200000000, sourceField := "",
            skipErrRecordNotFound := true, tag := "" } 5 fcW none) = 1) := by
  unfold capturesElapsed fcCallCount
  decide

/-- C2 (amended): for every call to Trace with the configured level above
Silent, the elapsed time is captured and the result-provider callback is
invoked exactly once; at level Silent or below, Trace returns immediately,
capturing nothing and invoking the callback zero times. -/
theorem trace_callback_invocation_count (ext : Ext) (l : GormLogger) (elapsed : Int)
    (fc : Unit → String × Int) (err : Option GormErr) :
    fcCallCount (l.Trace ext elapsed fc err) = (if gormSilent < l.logLevel then 1 else 0) ∧
      (capturesElapsed (l.Trace ext elapsed fc err) elapsed ↔ gormSilent < l.logLevel) := by
  unfold GormLogger.Trace fcCallCount capturesElapsed
  by_cases hs : l.logLevel ≤ gormSilent
  · have h2 : ¬ gormSilent < l.logLevel := not_lt.mpr hs
    simp [hs, h2]
  · have h2 : gormSilent < l.logLevel := not_le.mp hs
    simp only [hs, if_false]
    split_ifs <;> simp [h2]

end EzLog
